import Mathlib

/-!
Shallow embedding of the telemetry-agent scripts of
TrustchainLabs/planetary-neural-network:

* `pi4_dht11_sensor.py`        — sensor-variant agent (`DHT11Sensor`)
* `pi4_health_monitor.py`      — host-metrics agent (`PiHealthMonitor`)
* `test_dht11_integration.py`  — sensor simulator (`DHT11Simulator`)
* `test_pi_health_integration.py` — host simulator (`PiHealthSimulator`)

Numeric values are modelled as rationals (`ℚ`); the external sensor /
metric / HTTP collaborators are modelled as explicit inputs so that every
function is total and executable.
-/

/-- `MAX_RETRIES = 3` (pi4_dht11_sensor.py line 37). -/
def MAX_RETRIES : ℕ := 3

/-- One attempt's outcome at the external DHT11 source: either reading the
`temperature`/`humidity` properties raised an exception (`exn`), or it
delivered the two values, each possibly `None` (`ok`). -/
inductive SourceResult where
  | exn : SourceResult
  | ok (t? : Option ℚ) (h? : Option ℚ) : SourceResult
deriving DecidableEq

/-- Classification of one delivered sample, mirroring the validation chain
of `DHT11Sensor.read_sensor_data` (lines 81–92): missing first, then the
temperature range gate, then the humidity range gate. -/
inductive Classified where
  | valid (t h : ℚ) : Classified
  | missing : Classified
  | oorTemp (t : ℚ) : Classified
  | oorHum (t h : ℚ) : Classified
deriving DecidableEq

/-- The value-validation chain of `read_sensor_data`:
`if temperature is None or humidity is None` → missing;
`if temperature < -100 or temperature > 100` → out-of-range temperature;
`if humidity < 0 or humidity > 100` → out-of-range humidity;
otherwise the sample is usable. -/
def classify : Option ℚ → Option ℚ → Classified
  | none, _ => .missing
  | some _, none => .missing
  | some t, some h =>
      if t < -100 ∨ t > 100 then .oorTemp t
      else if h < 0 ∨ h > 100 then .oorHum t h
      else .valid t h

/-- Result of one `read_sensor_data` call: the returned reading (if any),
the seconds slept after each failed attempt (one list entry per failed
attempt, `0` when the code retried without sleeping), and the number of
loop iterations (source read attempts) performed. -/
structure AcquireOut where
  reading : Option (ℚ × ℚ)
  sleeps : List ℚ
  attempts : ℕ
deriving DecidableEq

/-- The retry loop body of `DHT11Sensor.read_sensor_data` (lines 75–107),
unrolled over the remaining `fuel` attempts, with `attempt` the current
0-based index (as in `for attempt in range(MAX_RETRIES)`).
* exception branch (lines 101–104): sleep 1 s only `if attempt < MAX_RETRIES - 1`;
* missing values (lines 81–84): log, `time.sleep(1)`, `continue`;
* temperature out of range (lines 86–88): log, `continue` — no sleep;
* humidity out of range (lines 90–92): log, `continue` — no sleep;
* valid values (lines 94–99): return the reading immediately. -/
def readLoopAux (source : ℕ → SourceResult) : ℕ → ℕ → AcquireOut
  | _, 0 => ⟨none, [], 0⟩
  | attempt, fuel + 1 =>
      match source attempt with
      | .exn =>
          let s : ℚ := if attempt < MAX_RETRIES - 1 then 1 else 0
          let r := readLoopAux source (attempt + 1) fuel
          ⟨r.reading, s :: r.sleeps, r.attempts + 1⟩
      | .ok t? h? =>
          match classify t? h? with
          | .missing =>
              let r := readLoopAux source (attempt + 1) fuel
              ⟨r.reading, (1 : ℚ) :: r.sleeps, r.attempts + 1⟩
          | .oorTemp _ =>
              let r := readLoopAux source (attempt + 1) fuel
              ⟨r.reading, (0 : ℚ) :: r.sleeps, r.attempts + 1⟩
          | .oorHum _ _ =>
              let r := readLoopAux source (attempt + 1) fuel
              ⟨r.reading, (0 : ℚ) :: r.sleeps, r.attempts + 1⟩
          | .valid t h => ⟨some (t, h), [], 1⟩

/-- `DHT11Sensor.read_sensor_data` with the sensor initialized: up to
`MAX_RETRIES` attempts starting at attempt index 0; `None` after
exhausting all attempts (line 107). -/
def read_sensor_data (source : ℕ → SourceResult) : AcquireOut :=
  readLoopAux source 0 MAX_RETRIES

/-- Outcome of one HTTP request as seen by the caller: a response with a
status code, or a `requests.exceptions.RequestException` from the
transport layer. -/
inductive HttpResult where
  | status (code : ℕ) : HttpResult
  | exn : HttpResult
deriving DecidableEq

/-- `DHT11Sensor.send_to_api` (lines 109–144): `False` on falsy input
(line 111–112); otherwise POST the payload and return `True` exactly when
`response.status_code == 201`; any other status returns `False`
(lines 138–140) and a `RequestException` is caught and returns `False`
(lines 142–144). Totality of this function embeds "failure never raises
out of the reporter". -/
def send_to_api (sensor_data : Option (ℚ × ℚ)) (resp : HttpResult) : Bool :=
  match sensor_data with
  | none => false
  | some _ =>
      match resp with
      | .status code => code == 201
      | .exn => false

/-- `PiHealthMonitor.send_health_data` (pi4_health_monitor.py lines
206–228): same shape as `send_to_api` — falsy input returns `False`,
status 201 returns `True`, any other status or a caught
`RequestException` returns `False`. `α` is the health-payload type. -/
def send_health_data {α : Type} (health_data : Option α) (resp : HttpResult) : Bool :=
  match health_data with
  | none => false
  | some _ =>
      match resp with
      | .status code => code == 201
      | .exn => false

/-- The wire payload built by `send_to_api` (lines 114–125). -/
structure SensorPayload where
  deviceId : String
  temperature : ℚ
  humidity : ℚ
  gpioPin : ℕ
  sensorType : String
  latitude : ℚ
  longitude : ℚ
deriving DecidableEq

/-- Payload construction of `send_to_api`: device id from the instance,
temperature and humidity from the acquired reading, `gpioPin = 4`,
`sensorType = DHT11`, fixed São Paulo coordinates. -/
def buildSensorPayload (deviceId : String) (r : ℚ × ℚ) : SensorPayload :=
  ⟨deviceId, r.1, r.2, 4, "DHT11", -23.5505, -46.6333⟩

/-- One cycle of `DHT11Sensor.run` (lines 159–167): acquire; only when a
reading was returned is `send_to_api` invoked. Returns the payload handed
to the reporter (`none` when the reporter was not invoked this cycle). -/
def runCyclePayload (deviceId : String) (source : ℕ → SourceResult) :
    Option SensorPayload :=
  match (read_sensor_data source).reading with
  | some r => some (buildSensorPayload deviceId r)
  | none => none

/-! ## Host-metrics agent (`pi4_health_monitor.py`) -/

/-- Python's `round(q, p)` scaled by `m = 10^p`, modelled as round-half-up
to the nearest multiple of `1/m`. (CPython uses banker's rounding at exact
halves; no settled fact here depends on tie direction.) -/
def rndTo (m : ℕ) (q : ℚ) : ℚ := ((⌊q * m + 1/2⌋ : ℤ) : ℚ) / m

/-- `round(x, 2)`. -/
def round2 (q : ℚ) : ℚ := rndTo 100 q

/-- `round(x, 1)`. -/
def round1 (q : ℚ) : ℚ := rndTo 10 q

/-- `round(x, 3)`. -/
def round3 (q : ℚ) : ℚ := rndTo 1000 q

/-- `round(x, 0)`. -/
def round0 (q : ℚ) : ℚ := rndTo 1 q

/-- `PiHealthMonitor.get_cpu_temperature` (lines 61–70): the raw source is
the integer content of `/sys/class/thermal/thermal_zone0/temp`
(millidegrees), divided by 1000; any exception degrades to `0.0`. -/
def get_cpu_temperature (raw : Except Unit ℤ) : ℚ :=
  match raw with
  | .ok milli => (milli : ℚ) / 1000
  | .error _ => 0

/-- `PiHealthMonitor.get_cpu_usage` (lines 72–78): `psutil.cpu_percent`,
`0.0` on exception. -/
def get_cpu_usage (raw : Except Unit ℚ) : ℚ :=
  match raw with
  | .ok v => v
  | .error _ => 0

/-- `PiHealthMonitor.get_memory_usage` (lines 80–87): memory percent,
`0.0` on exception. -/
def get_memory_usage (raw : Except Unit ℚ) : ℚ :=
  match raw with
  | .ok v => v
  | .error _ => 0

/-- `PiHealthMonitor.get_disk_usage` (lines 89–96): disk percent, `0.0`
on exception. -/
def get_disk_usage (raw : Except Unit ℚ) : ℚ :=
  match raw with
  | .ok v => v
  | .error _ => 0

/-- `PiHealthMonitor.get_network_usage` (lines 98–108): bytes sent /
received converted to MB; both components `0.0` on exception. -/
def get_network_usage (raw : Except Unit (ℚ × ℚ)) : ℚ × ℚ :=
  match raw with
  | .ok (sent, recv) => (sent / 1024 / 1024, recv / 1024 / 1024)
  | .error _ => (0, 0)

/-- `PiHealthMonitor.get_system_load` (lines 110–121): `os.getloadavg`
triple; all three components `0.0` on exception. -/
def get_system_load (raw : Except Unit (ℚ × ℚ × ℚ)) : ℚ × ℚ × ℚ :=
  match raw with
  | .ok l => l
  | .error _ => (0, 0, 0)

/-- `PiHealthMonitor.get_uptime` (lines 123–129): `time.time() -
psutil.boot_time()`, `0.0` on exception. -/
def get_uptime (raw : Except Unit (ℚ × ℚ)) : ℚ :=
  match raw with
  | .ok (now, boot) => now - boot
  | .error _ => 0

/-- `PiHealthMonitor.get_cpu_voltage` (lines 131–143): `vcgencmd`
invocation abstracted to `ok (some v)` (command succeeded and parsed to
voltage `v`), `ok none` (non-zero return code, falls through to `return
None`), or `error` (exception, caught, `return None`). -/
def get_cpu_voltage (raw : Except Unit (Option ℚ)) : Option ℚ :=
  match raw with
  | .ok v? => v?
  | .error _ => none

/-- `PiHealthMonitor.get_cpu_frequency` (lines 145–157): like the voltage
getter, with the raw Hz value divided by 1000000 to MHz. -/
def get_cpu_frequency (raw : Except Unit (Option ℤ)) : Option ℚ :=
  match raw with
  | .ok (some hz) => some ((hz : ℚ) / 1000000)
  | .ok none => none
  | .error _ => none

/-- JSON-ish wire values, enough to express the health payload. -/
inductive JVal where
  | num (q : ℚ) : JVal
  | str (s : String) : JVal
  | obj (fields : List (String × JVal)) : JVal

/-- The external state `collect_health_data` consults: one raw source per
metric getter, plus static configuration. -/
structure HealthEnv where
  deviceId : String
  timestamp : String
  cpuTempRaw : Except Unit ℤ
  cpuUsageRaw : Except Unit ℚ
  memoryRaw : Except Unit ℚ
  diskRaw : Except Unit ℚ
  networkRaw : Except Unit (ℚ × ℚ)
  loadRaw : Except Unit (ℚ × ℚ × ℚ)
  uptimeRaw : Except Unit (ℚ × ℚ)
  voltageRaw : Except Unit (Option ℚ)
  frequencyRaw : Except Unit (Option ℤ)

/-- `PiHealthMonitor.collect_health_data` (lines 159–204): run every
getter, build the payload dict in insertion order (lines 173–190), then
conditionally append `voltage` (rounded to 3 decimals) and `frequency`
(rounded to 0 decimals) only when the optional getters returned a value
(lines 192–196). -/
def collect_health_data (env : HealthEnv) : List (String × JVal) :=
  let cpu_temp := get_cpu_temperature env.cpuTempRaw
  let cpu_usage := get_cpu_usage env.cpuUsageRaw
  let memory_usage := get_memory_usage env.memoryRaw
  let disk_usage := get_disk_usage env.diskRaw
  let network_usage := get_network_usage env.networkRaw
  let load_avg := get_system_load env.loadRaw
  let uptime := get_uptime env.uptimeRaw
  let voltage := get_cpu_voltage env.voltageRaw
  let frequency := get_cpu_frequency env.frequencyRaw
  [("deviceId", JVal.str env.deviceId),
   ("cpuTemperature", JVal.num (round2 cpu_temp)),
   ("cpuUsage", JVal.num (round2 cpu_usage)),
   ("memoryUsage", JVal.num (round2 memory_usage)),
   ("diskUsage", JVal.num (round2 disk_usage)),
   ("networkUpload", JVal.num (round2 network_usage.1)),
   ("networkDownload", JVal.num (round2 network_usage.2)),
   ("uptime", JVal.num (round2 uptime)),
   ("loadAverage1m", JVal.num (round2 load_avg.1)),
   ("loadAverage5m", JVal.num (round2 load_avg.2.1)),
   ("loadAverage15m", JVal.num (round2 load_avg.2.2)),
   ("timestamp", JVal.str env.timestamp),
   ("location", JVal.obj [("latitude", JVal.num (-23.5505)),
                          ("longitude", JVal.num (-46.6333))])]
  ++ (match voltage with
      | some v => [("voltage", JVal.num (round3 v))]
      | none => [])
  ++ (match frequency with
      | some f => [("frequency", JVal.num (round0 f))]
      | none => [])

/-- Field names present in a payload, in order. -/
def payloadKeys (p : List (String × JVal)) : List String := p.map Prod.fst

/-- The sidecar gate in one cycle of `PiHealthMonitor.run` (lines
300–314): only when health data was collected, and only when
`send_health_data` returned `True`, is the wall-clock gate
`time.time() % 300 < self.interval` consulted; `true` means the sidecar
queries (`get_device_status`, `get_recommendations`) run this cycle. -/
def monitorCycleSidecar (interval t : ℕ)
    (data? : Option (List (String × JVal))) (resp : HttpResult) : Bool :=
  match data? with
  | none => false
  | some d =>
      if send_health_data (some d) resp then decide (t % 300 < interval)
      else false

/-! ## Process entry and preflight (`main` / `run`) -/

/-- `pi4_dht11_sensor.py` process outcome as a pair
(exit status, whether the running cycle was entered):
`main` (lines 176–187) exits with status 1 when not root (line 181);
otherwise `run` (lines 146–174) returns without entering the loop when
`initialize_sensor` fails (lines 150–152), so the process ends with exit
status 0; with preflight passed the loop is entered. -/
def sensorMain (isRoot initOk : Bool) : ℕ × Bool :=
  if !isRoot then (1, false)
  else if !initOk then (0, false)
  else (0, true)

/-- `pi4_health_monitor.py` process outcome: `run` (lines 283–324)
returns without entering the loop when `test_api_connection` fails (lines
290–293) and the process ends with exit status 0; the non-root case only
logs a warning (line 339) and continues. -/
def monitorMain (apiOk : Bool) : ℕ × Bool :=
  if !apiOk then (0, false) else (0, true)

/-- The two simulator scripts' preflight (`test_api_connection` at
test_dht11_integration.py lines 150–152 and
test_pi_health_integration.py lines 204–206): on failure `run` returns
and the process ends with exit status 0. -/
def simulatorMain (apiOk : Bool) : ℕ × Bool :=
  if !apiOk then (0, false) else (0, true)

/-! ## Simulators (`test_dht11_integration.py`, `test_pi_health_integration.py`)

`math.sin((hour - k) * math.pi / 12)` is modelled as `sinPi ((hour - k) / 12)`
for an explicit function parameter `sinPi : ℚ → ℚ` standing for
`x ↦ sin (x * π)`; `random.uniform(a, b)` is modelled as
`a + (b - a) * u i` where `u i ∈ [0, 1]` is the i-th draw of the seeded
random source, draws numbered in the order the code makes them. -/

/-- `random.uniform(a, b)` applied to unit draw `d`. -/
def uniform (a b d : ℚ) : ℚ := a + (b - a) * d

/-- Python runtime errors relevant here. -/
inductive PyErr where
  | nameError : PyErr
deriving DecidableEq

/-- `test_dht11_integration.py` binds the name `math` only inside
`main()`'s local scope (the `import math` statement is at line 191,
inside `main`); no module-level binding of `math` exists, so the global
lookup of `math` from `generate_realistic_data` (line 42) fails. -/
def dht11SimMathInScope : Bool := false

/-- `DHT11Simulator.generate_realistic_data` (lines 34–56), parametrised
by whether the name `math` resolves at its global scope (`mathBound`).
When it does not, the first use of `math.sin` (line 42) raises a
`NameError` before any random draw; when it does, the simulated reading is
`base + diurnal·sin + noise`, clamped
(`temperature` to `[-10, 50]`, `humidity` to `[20, 80]`) and rounded to
one decimal. -/
def generate_realistic_data (mathBound : Bool) (sinPi : ℚ → ℚ) (hour : ℤ)
    (u : ℕ → ℚ) : Except PyErr (ℚ × ℚ) :=
  if !mathBound then .error .nameError
  else
    let temp_variation := 3 * sinPi (((hour : ℚ) - 6) / 12)
    let humidity_variation := -10 * sinPi (((hour : ℚ) - 6) / 12)
    let temp_noise := uniform (-0.5) 0.5 (u 0)
    let humidity_noise := uniform (-1) 1 (u 1)
    let temperature := 22 + temp_variation + temp_noise
    let humidity := 45 + humidity_variation + humidity_noise
    let temperature := max (-10) (min 50 temperature)
    let humidity := max 20 (min 80 humidity)
    .ok (round1 temperature, round1 humidity)

/-- `DHT11Simulator.send_data` (lines 58–90): `True` exactly on status
201; other statuses and caught `RequestException`s give `False`. -/
def send_data (_reading : ℚ × ℚ) (resp : HttpResult) : Bool :=
  match resp with
  | .status code => code == 201
  | .exn => false

/-- Outcome of one iteration of `DHT11Simulator.run`'s while loop
(lines 158–172). -/
inductive SimCycleOutcome where
  | aborted : SimCycleOutcome
  | reported (ok : Bool) : SimCycleOutcome
deriving DecidableEq

/-- One iteration of `DHT11Simulator.run` (lines 158–177): generate, then
send; an exception raised by `generate_realistic_data` escapes the while
loop to the generic `except Exception` handler (lines 176–177), ending
the loop (`aborted`). -/
def dht11SimCycle (mathBound : Bool) (sinPi : ℚ → ℚ) (hour : ℤ)
    (u : ℕ → ℚ) (resp : HttpResult) : SimCycleOutcome :=
  match generate_realistic_data mathBound sinPi hour u with
  | .error _ => .aborted
  | .ok r => .reported (send_data r resp)

/-- The payload of `PiHealthSimulator.generate_realistic_health_data`
(lines 80–99): all fields are always present, `voltage` and `frequency`
included. -/
structure HealthSimOut where
  deviceId : String
  cpuTemperature : ℚ
  cpuUsage : ℚ
  memoryUsage : ℚ
  diskUsage : ℚ
  networkUpload : ℚ
  networkDownload : ℚ
  uptime : ℚ
  loadAverage1m : ℚ
  loadAverage5m : ℚ
  loadAverage15m : ℚ
  voltage : ℚ
  frequency : ℚ
  timestamp : String
deriving DecidableEq

/-- `PiHealthSimulator.generate_realistic_health_data` (lines 35–99):
diurnal bases plus uniform noise, the four primary metrics clamped
(lines 59–62), load averages derived from `cpu_usage` with damping and
noise (lines 65–67, only `load_1m` is clamped, from below at `0.1`),
network drawn directly, `uptime = time.time() + uniform(-3600, 3600)`
(line 74), voltage and frequency around fixed bases; fields rounded as in
the returned dict (lines 80–99). `epochNow` is `time.time()` and `hour`
is `datetime.now().hour`. -/
def generate_realistic_health_data (sinPi : ℚ → ℚ) (hour : ℤ)
    (epochNow : ℚ) (u : ℕ → ℚ) (deviceId timestamp : String) : HealthSimOut :=
  let temp_variation := 10 * sinPi (((hour : ℚ) - 6) / 12)
  let usage_variation := 20 * sinPi (((hour : ℚ) - 8) / 12)
  let temp_noise := uniform (-2) 2 (u 0)
  let usage_noise := uniform (-5) 5 (u 1)
  let cpu_temperature := 45 + temp_variation + temp_noise
  let cpu_usage := 30 + usage_variation + usage_noise
  let memory_usage := 50 + usage_variation * 0.8 + uniform (-3) 3 (u 2)
  let disk_usage := 60 + uniform (-2) 2 (u 3)
  let cpu_temperature := max 20 (min 85 cpu_temperature)
  let cpu_usage := max 5 (min 95 cpu_usage)
  let memory_usage := max 20 (min 90 memory_usage)
  let disk_usage := max 40 (min 95 disk_usage)
  let load_1m := max 0.1 (cpu_usage / 100 * 2 + uniform (-0.5) 0.5 (u 4))
  let load_5m := load_1m * 0.8 + uniform (-0.2) 0.2 (u 5)
  let load_15m := load_5m * 0.9 + uniform (-0.1) 0.1 (u 6)
  let network_upload := uniform 0 10 (u 7)
  let network_download := uniform 0 20 (u 8)
  let uptime := epochNow + uniform (-3600) 3600 (u 9)
  let voltage := 4.8 + uniform (-0.2) 0.2 (u 10)
  let frequency := 1400 + uniform (-100) 100 (u 11)
  { deviceId := deviceId
    cpuTemperature := round2 cpu_temperature
    cpuUsage := round2 cpu_usage
    memoryUsage := round2 memory_usage
    diskUsage := round2 disk_usage
    networkUpload := round2 network_upload
    networkDownload := round2 network_download
    uptime := round2 uptime
    loadAverage1m := round2 load_1m
    loadAverage5m := round2 load_5m
    loadAverage15m := round2 load_15m
    voltage := round3 voltage
    frequency := round0 frequency
    timestamp := timestamp }

/-! ## Derived definitions and concrete instances -/

/-- Whether one source attempt yields a sample the validation chain
accepts (the loop then returns it without any further sleep). -/
def isValidSample : SourceResult → Bool
  | .exn => false
  | .ok t? h? =>
      match classify t? h? with
      | .valid _ _ => true
      | _ => false

/-- The seconds `read_sensor_data` sleeps after the failed attempt with
0-based index `attempt` whose source outcome was `r`: 1 s after missing
values, 0 s (immediate retry) after an out-of-range value, and after an
exception 1 s only while attempts remain. -/
def sleepAfter : SourceResult → ℕ → ℚ
  | .exn, attempt => if attempt < MAX_RETRIES - 1 then 1 else 0
  | .ok t? h?, _ =>
      match classify t? h? with
      | .missing => 1
      | _ => 0

/-- A source whose every attempt yields `temperature=150` (out of range)
with an in-range humidity. -/
def oorSource : ℕ → SourceResult := fun _ => .ok (some 150) (some 50)

/-- A source whose every attempt yields missing (`None`) values. -/
def missingSource : ℕ → SourceResult := fun _ => .ok none none

/-- A source whose every attempt yields the valid reading
`{temperature: 22.5, humidity: 48.0}`. -/
def goodSource : ℕ → SourceResult := fun _ => .ok (some 22.5) (some 48)

/-- A concrete health environment: every mandatory metric source healthy,
`vcgencmd measure_volts` raising (voltage unavailable) and
`vcgencmd measure_clock` returning a non-zero exit code (frequency
unavailable). -/
def sampleHealthEnv : HealthEnv where
  deviceId := "pi4-device-001"
  timestamp := "2025-01-01T00:00:00Z"
  cpuTempRaw := .ok 48000
  cpuUsageRaw := .ok 25
  memoryRaw := .ok 47
  diskRaw := .ok 58
  networkRaw := .ok (1048576, 2097152)
  loadRaw := .ok (0.5, 0.4, 0.3)
  uptimeRaw := .ok (1000, 400)
  voltageRaw := .error ()
  frequencyRaw := .ok none

/-- A concrete stand-in for `x ↦ sin (x * π)` used at wall-clock hour 8,
where the simulators evaluate the sine only at the arguments `(8-6)/12 =
1/6` and `(8-8)/12 = 0`; there the true values are exactly `sin (π/6) =
1/2` and `sin 0 = 0`, which this function reproduces. -/
def sinPiEx : ℚ → ℚ := fun q => if q = 1/6 then 1/2 else 0

/-- The random source whose every unit draw is 0, i.e. every
`random.uniform(a, b)` call returns its lower bound `a` — a value the
real generator can produce. -/
def zeroDraws : ℕ → ℚ := fun _ => 0

/-! ## Helper lemmas -/

theorem rndTo_ge_of (m : ℕ) (hm : 0 < (m : ℚ)) (x b : ℚ) (k : ℤ)
    (hb : b * m = (k : ℚ)) (h : b ≤ x) : b ≤ rndTo m x := by
  rw [rndTo, le_div_iff₀ hm, hb]
  have h1 : (k : ℚ) ≤ x * m + 1/2 := by
    have h2 := mul_le_mul_of_nonneg_right h (le_of_lt hm)
    linarith
  exact_mod_cast Int.le_floor.mpr h1

theorem rndTo_le_of (m : ℕ) (hm : 0 < (m : ℚ)) (x b : ℚ) (k : ℤ)
    (hb : b * m = (k : ℚ)) (h : x ≤ b) : rndTo m x ≤ b := by
  rw [rndTo, div_le_iff₀ hm, hb]
  have h1 : x * m + 1/2 < (k : ℚ) + 1 := by
    have h2 := mul_le_mul_of_nonneg_right h (le_of_lt hm)
    linarith
  have h3 : ⌊x * (m : ℚ) + 1/2⌋ ≤ k :=
    Int.lt_add_one_iff.mp (Int.floor_lt.mpr (by exact_mod_cast h1))
  exact_mod_cast h3

theorem classify_valid_range (t? h? : Option ℚ) (t h : ℚ)
    (hc : classify t? h? = .valid t h) :
    -100 ≤ t ∧ t ≤ 100 ∧ 0 ≤ h ∧ h ≤ 100 := by
  cases t? with
  | none => simp [classify] at hc
  | some a =>
    cases h? with
    | none => simp [classify] at hc
    | some b =>
      by_cases h1 : a < -100 ∨ a > 100
      · simp [classify, h1] at hc
      · by_cases h2 : b < 0 ∨ b > 100
        · simp [classify, h1, h2] at hc
        · simp [classify, h1, h2] at hc
          push_neg at h1 h2
          obtain ⟨rfl, rfl⟩ := hc
          exact ⟨h1.1, h1.2, h2.1, h2.2⟩

theorem readLoopAux_range (source : ℕ → SourceResult) :
    ∀ (fuel attempt : ℕ) (t h : ℚ),
      (readLoopAux source attempt fuel).reading = some (t, h) →
      -100 ≤ t ∧ t ≤ 100 ∧ 0 ≤ h ∧ h ≤ 100 := by
  intro fuel
  induction fuel with
  | zero => intro attempt t h hr; simp [readLoopAux] at hr
  | succ n ih =>
    intro attempt t h hr
    cases hs : source attempt with
    | exn =>
      simp only [readLoopAux, hs] at hr
      exact ih (attempt + 1) t h hr
    | ok t? h? =>
      simp only [readLoopAux, hs] at hr
      cases hc : classify t? h? with
      | valid a b =>
        rw [hc] at hr
        simp at hr
        obtain ⟨rfl, rfl⟩ := hr
        exact classify_valid_range t? h? a b hc
      | missing => rw [hc] at hr; exact ih (attempt + 1) t h hr
      | oorTemp a => rw [hc] at hr; exact ih (attempt + 1) t h hr
      | oorHum a b => rw [hc] at hr; exact ih (attempt + 1) t h hr

theorem readLoopAux_attempts_le (source : ℕ → SourceResult) :
    ∀ (fuel attempt : ℕ), (readLoopAux source attempt fuel).attempts ≤ fuel := by
  intro fuel
  induction fuel with
  | zero => intro attempt; simp [readLoopAux]
  | succ n ih =>
    intro attempt
    cases hs : source attempt with
    | exn =>
      simp only [readLoopAux, hs]
      exact Nat.succ_le_succ (ih (attempt + 1))
    | ok t? h? =>
      simp only [readLoopAux, hs]
      cases hc : classify t? h? with
      | valid a b =>
        show (1 : ℕ) ≤ n + 1
        exact Nat.succ_le_succ (Nat.zero_le n)
      | missing =>
        show (readLoopAux source (attempt + 1) n).attempts + 1 ≤ n + 1
        exact Nat.succ_le_succ (ih (attempt + 1))
      | oorTemp a =>
        show (readLoopAux source (attempt + 1) n).attempts + 1 ≤ n + 1
        exact Nat.succ_le_succ (ih (attempt + 1))
      | oorHum a b =>
        show (readLoopAux source (attempt + 1) n).attempts + 1 ≤ n + 1
        exact Nat.succ_le_succ (ih (attempt + 1))

theorem readLoopAux_sleeps_spec (source : ℕ → SourceResult) :
    ∀ (fuel attempt : ℕ),
      (readLoopAux source attempt fuel).sleeps
        = (List.range (readLoopAux source attempt fuel).sleeps.length).map
            (fun j => sleepAfter (source (attempt + j)) (attempt + j)) ∧
      ∀ j, j < (readLoopAux source attempt fuel).sleeps.length →
        isValidSample (source (attempt + j)) = false := by
  intro fuel
  induction fuel with
  | zero => intro attempt; simp [readLoopAux]
  | succ n ih =>
    intro attempt
    cases hs : source attempt with
    | exn =>
      obtain ⟨ih1, ih2⟩ := ih (attempt + 1)
      constructor
      · simp only [readLoopAux, hs, List.length_cons, List.range_succ_eq_map,
          List.map_cons, List.map_map]
        refine List.cons_eq_cons.mpr ⟨?_, ?_⟩
        · simp [hs, sleepAfter]
        · conv_lhs => rw [ih1]
          refine List.map_congr_left ?_
          intro j _
          have harith : attempt + 1 + j = attempt + (j + 1) := by omega
          simp [Function.comp, harith]
      · intro j hj
        cases j with
        | zero => simp [hs, isValidSample]
        | succ i =>
          have harith : attempt + (i + 1) = attempt + 1 + i := by omega
          rw [harith]
          apply ih2
          simp only [readLoopAux, hs, List.length_cons] at hj
          omega
    | ok t? h? =>
      cases hc : classify t? h? with
      | valid a b =>
        constructor
        · simp [readLoopAux, hs, hc]
        · intro j hj
          simp [readLoopAux, hs, hc] at hj
      | missing =>
        obtain ⟨ih1, ih2⟩ := ih (attempt + 1)
        constructor
        · simp only [readLoopAux, hs, hc, List.length_cons, List.range_succ_eq_map,
            List.map_cons, List.map_map]
          refine List.cons_eq_cons.mpr ⟨?_, ?_⟩
          · simp [hs, sleepAfter, hc]
          · conv_lhs => rw [ih1]
            refine List.map_congr_left ?_
            intro j _
            have harith : attempt + 1 + j = attempt + (j + 1) := by omega
            simp [Function.comp, harith]
        · intro j hj
          cases j with
          | zero => simp [hs, isValidSample, hc]
          | succ i =>
            have harith : attempt + (i + 1) = attempt + 1 + i := by omega
            rw [harith]
            apply ih2
            simp only [readLoopAux, hs, hc, List.length_cons] at hj
            omega
      | oorTemp a =>
        obtain ⟨ih1, ih2⟩ := ih (attempt + 1)
        constructor
        · simp only [readLoopAux, hs, hc, List.length_cons, List.range_succ_eq_map,
            List.map_cons, List.map_map]
          refine List.cons_eq_cons.mpr ⟨?_, ?_⟩
          · simp [hs, sleepAfter, hc]
          · conv_lhs => rw [ih1]
            refine List.map_congr_left ?_
            intro j _
            have harith : attempt + 1 + j = attempt + (j + 1) := by omega
            simp [Function.comp, harith]
        · intro j hj
          cases j with
          | zero => simp [hs, isValidSample, hc]
          | succ i =>
            have harith : attempt + (i + 1) = attempt + 1 + i := by omega
            rw [harith]
            apply ih2
            simp only [readLoopAux, hs, hc, List.length_cons] at hj
            omega
      | oorHum a b =>
        obtain ⟨ih1, ih2⟩ := ih (attempt + 1)
        constructor
        · simp only [readLoopAux, hs, hc, List.length_cons, List.range_succ_eq_map,
            List.map_cons, List.map_map]
          refine List.cons_eq_cons.mpr ⟨?_, ?_⟩
          · simp [hs, sleepAfter, hc]
          · conv_lhs => rw [ih1]
            refine List.map_congr_left ?_
            intro j _
            have harith : attempt + 1 + j = attempt + (j + 1) := by omega
            simp [Function.comp, harith]
        · intro j hj
          cases j with
          | zero => simp [hs, isValidSample, hc]
          | succ i =>
            have harith : attempt + (i + 1) = attempt + 1 + i := by omega
            rw [harith]
            apply ih2
            simp only [readLoopAux, hs, hc, List.length_cons] at hj
            omega

/-! ## Claim theorems -/

/-- C1: `read_sensor_data` never returns a reading whose temperature lies
outside `[-100, 100]` or whose humidity lies outside `[0, 100]`: such
values are classified out-of-range (not reportable) by the validation
chain, and since `run` only calls `send_to_api` on a returned reading,
every payload handed to the reporter satisfies both ranges. -/
theorem c1_no_out_of_range_reported :
    (∀ t h : ℚ, (t < -100 ∨ t > 100) →
        classify (some t) (some h) = .oorTemp t) ∧
    (∀ t h : ℚ, -100 ≤ t → t ≤ 100 → (h < 0 ∨ h > 100) →
        classify (some t) (some h) = .oorHum t h) ∧
    (∀ (deviceId : String) (source : ℕ → SourceResult) (p : SensorPayload),
        runCyclePayload deviceId source = some p →
        -100 ≤ p.temperature ∧ p.temperature ≤ 100 ∧
        0 ≤ p.humidity ∧ p.humidity ≤ 100) := by
  refine ⟨?_, ?_, ?_⟩
  · intro t h ht
    simp [classify, ht]
  · intro t h ht1 ht2 hh
    have hnot : ¬(t < -100 ∨ t > 100) := by push_neg; exact ⟨ht1, ht2⟩
    simp [classify, hnot, hh]
  · intro deviceId source p hp
    unfold runCyclePayload at hp
    cases hr : (read_sensor_data source).reading with
    | none => rw [hr] at hp; simp at hp
    | some r =>
      rw [hr] at hp
      simp at hp
      obtain ⟨t, h⟩ := r
      have hrange := readLoopAux_range source MAX_RETRIES 0 t h hr
      subst hp
      simpa [buildSensorPayload] using hrange

/-- Witness for C1 at concrete inputs: `temperature=150` classifies as
out-of-range, `humidity=150` classifies as out-of-range, and the payload
of a cycle over `goodSource` (valid reading 22.5 °C / 48 %) satisfies the
ranges. -/
theorem c1_no_out_of_range_reported_witness :
    classify (some (150 : ℚ)) (some 50) = .oorTemp 150 ∧
    classify (some (22 : ℚ)) (some 150) = .oorHum 22 150 ∧
    (-100 ≤ (buildSensorPayload "pi4-dht11-001" (22.5, 48)).temperature ∧
     (buildSensorPayload "pi4-dht11-001" (22.5, 48)).temperature ≤ 100 ∧
     0 ≤ (buildSensorPayload "pi4-dht11-001" (22.5, 48)).humidity ∧
     (buildSensorPayload "pi4-dht11-001" (22.5, 48)).humidity ≤ 100) := by
  refine ⟨c1_no_out_of_range_reported.1 150 50 (by norm_num),
          c1_no_out_of_range_reported.2.1 22 150 (by norm_num) (by norm_num)
            (by norm_num),
          c1_no_out_of_range_reported.2.2 "pi4-dht11-001" goodSource _ ?_⟩
  norm_num [runCyclePayload, read_sensor_data, MAX_RETRIES, readLoopAux,
    goodSource, classify, buildSensorPayload]

/-- C2: per call, `read_sensor_data` performs at most `MAX_RETRIES`
source read attempts, and with a source that always yields missing
(`None`) values exactly 3 attempts occur and the call returns `None`
rather than raising. -/
theorem c2_bounded_retries :
    (∀ source : ℕ → SourceResult,
        (read_sensor_data source).attempts ≤ MAX_RETRIES) ∧
    (read_sensor_data missingSource).attempts = 3 ∧
    (read_sensor_data missingSource).reading = none := by
  refine ⟨fun source => readLoopAux_attempts_le source MAX_RETRIES 0, by decide, by decide⟩

/-- C3: both reporters return `True` exactly when the HTTP POST yields
status code 201; every other status code and every caught transport
exception yields `False`, and — the functions being total — failure never
raises out of the reporter. -/
theorem c3_reporter_success_iff_201 :
    (∀ (r : ℚ × ℚ) (resp : HttpResult),
        send_to_api (some r) resp = true ↔ resp = .status 201) ∧
    (∀ (d : List (String × JVal)) (resp : HttpResult),
        send_health_data (some d) resp = true ↔ resp = .status 201) := by
  constructor
  · intro r resp
    cases resp with
    | status code => simp [send_to_api]
    | exn => simp [send_to_api]
  · intro d resp
    cases resp with
    | status code => simp [send_health_data]
    | exn => simp [send_health_data]

/-- C4: each mandatory metric getter independently degrades its own
failure to `0.0` (never a null), the optional getters return `None` when
voltage/frequency are unavailable (exception or non-zero exit code), and
the built health payload then omits the `voltage` / `frequency` field
entirely. -/
theorem c4_degrade_and_optional_omission :
    (get_cpu_temperature (.error ()) = 0 ∧ get_cpu_usage (.error ()) = 0 ∧
     get_memory_usage (.error ()) = 0 ∧ get_disk_usage (.error ()) = 0 ∧
     get_network_usage (.error ()) = (0, 0) ∧
     get_system_load (.error ()) = (0, 0, 0) ∧
     get_uptime (.error ()) = 0 ∧
     get_cpu_voltage (.error ()) = none ∧ get_cpu_voltage (.ok none) = none ∧
     get_cpu_frequency (.error ()) = none ∧ get_cpu_frequency (.ok none) = none) ∧
    (∀ env : HealthEnv, get_cpu_voltage env.voltageRaw = none →
        "voltage" ∉ payloadKeys (collect_health_data env)) ∧
    (∀ env : HealthEnv, get_cpu_frequency env.frequencyRaw = none →
        "frequency" ∉ payloadKeys (collect_health_data env)) := by
  refine ⟨⟨rfl, rfl, rfl, rfl, rfl, rfl, rfl, rfl, rfl, rfl, rfl⟩, ?_, ?_⟩
  · intro env hv
    cases hf : get_cpu_frequency env.frequencyRaw with
    | none => simp [collect_health_data, payloadKeys, hv, hf]
    | some f => simp [collect_health_data, payloadKeys, hv, hf]
  · intro env hf
    cases hv : get_cpu_voltage env.voltageRaw with
    | none => simp [collect_health_data, payloadKeys, hv, hf]
    | some v => simp [collect_health_data, payloadKeys, hv, hf]

/-- Witness for C4: in `sampleHealthEnv` the voltage source raises and the
frequency command exits non-zero; the built payload omits both fields. -/
theorem c4_degrade_and_optional_omission_witness :
    "voltage" ∉ payloadKeys (collect_health_data sampleHealthEnv) ∧
    "frequency" ∉ payloadKeys (collect_health_data sampleHealthEnv) := by
  exact ⟨c4_degrade_and_optional_omission.2.1 sampleHealthEnv rfl,
         c4_degrade_and_optional_omission.2.2 sampleHealthEnv rfl⟩

/-- C5 counterexample: with a source always yielding the out-of-range
temperature 150 °C, each of the three failed attempts is followed by a
0-second (immediate) retry — the code path for an OutOfRange
classification executes `continue` without any `time.sleep`, refuting the
claimed fixed 1-second backoff after OutOfRange. -/
theorem c5_counterexample :
    classify (some (150 : ℚ)) (some 50) = .oorTemp 150 ∧
    (read_sensor_data oorSource).sleeps = [0, 0, 0] ∧
    (read_sensor_data oorSource).sleeps ≠ [1, 1, 1] := by decide

/-- C5 amended: within one `read_sensor_data` call, the seconds slept
after each failed attempt `j` are exactly `sleepAfter (source j) j`: 1 s
after a Missing classification, 0 s (immediate retry) after an OutOfRange
classification, and after an unexpected source exception 1 s only while
further attempts remain; every attempt with a trace entry was indeed a
failed one. -/
theorem c5_amended_backoff (source : ℕ → SourceResult) :
    (read_sensor_data source).sleeps
      = (List.range (read_sensor_data source).sleeps.length).map
          (fun j => sleepAfter (source j) j) ∧
    ∀ j, j < (read_sensor_data source).sleeps.length →
      isValidSample (source j) = false := by
  have h := readLoopAux_sleeps_spec source MAX_RETRIES 0
  simpa using h

/-- Witness for C5 (amended) at the always-missing source, attempt 0. -/
theorem c5_amended_backoff_witness :
    (read_sensor_data missingSource).sleeps
      = (List.range (read_sensor_data missingSource).sleeps.length).map
          (fun j => sleepAfter (missingSource j) j) ∧
    isValidSample (missingSource 0) = false := by
  exact ⟨(c5_amended_backoff missingSource).1,
         (c5_amended_backoff missingSource).2 0 (by decide)⟩

/-- C6 counterexample: with root privileges and a failing sensor
preflight, the process ends with exit status 0 (run returns, main
returns), not the claimed non-zero status; moreover the sensor variant's
non-root check aborts the process with status 1 before preflight, so
preflight failure is not the only aborting condition. -/
theorem c6_counterexample :
    sensorMain true false = (0, false) ∧
    sensorMain false true = (1, false) := by decide

/-- C6 amended: a preflight failure is terminal in every variant — the
process exits without entering the running cycle — but with exit status
0; the only non-zero exit status is the sensor variant's non-root check,
which precedes preflight; the running cycle is entered exactly when the
preflight passes. -/
theorem c6_amended_preflight :
    sensorMain true false = (0, false) ∧
    monitorMain false = (0, false) ∧
    simulatorMain false = (0, false) ∧
    (∀ b, sensorMain false b = (1, false)) ∧
    (sensorMain true true).2 = true ∧
    (monitorMain true).2 = true ∧
    (simulatorMain true).2 = true := by decide

/-- C7 counterexample: at wall-clock second 0 (so `0 % 300 < 30` holds)
but with the report rejected (HTTP 500), the sidecar queries are not
invoked — the time-modulo condition alone is not sufficient, refuting
"invoked when (wall-clock seconds mod 300) < interval and only under that
condition". -/
theorem c7_counterexample :
    0 % 300 < 30 ∧
    monitorCycleSidecar 30 0 (some (collect_health_data sampleHealthEnv))
      (.status 500) = false := by
  constructor
  · norm_num
  · simp [monitorCycleSidecar, send_health_data]

/-- C7 amended: sidecar queries run in a cycle exactly when health data
was collected, the report succeeded, and `t % 300 < interval`; hence the
time-modulo condition is necessary, and — cycle start times being at
least `interval` seconds apart — at most one cycle per 300-second window
invokes them. -/
theorem c7_amended_sidecar_gate :
    (∀ (interval t : ℕ) (data? : Option (List (String × JVal)))
        (resp : HttpResult),
        monitorCycleSidecar interval t data? resp = true →
        t % 300 < interval) ∧
    (∀ (interval t1 t2 : ℕ) (d1 d2 : Option (List (String × JVal)))
        (r1 r2 : HttpResult),
        t1 / 300 = t2 / 300 → t1 + interval ≤ t2 →
        monitorCycleSidecar interval t1 d1 r1 = true →
        monitorCycleSidecar interval t2 d2 r2 = false) ∧
    (∀ (interval t : ℕ) (d : List (String × JVal)) (resp : HttpResult),
        monitorCycleSidecar interval t (some d) resp = true ↔
          (send_health_data (some d) resp = true ∧ t % 300 < interval)) := by
  have hgate : ∀ (interval t : ℕ) (data? : Option (List (String × JVal)))
      (resp : HttpResult),
      monitorCycleSidecar interval t data? resp = true → t % 300 < interval := by
    intro interval t data? resp h
    cases data? with
    | none => simp [monitorCycleSidecar] at h
    | some d =>
      simp only [monitorCycleSidecar] at h
      split_ifs at h with hsend
      exact of_decide_eq_true h
  refine ⟨hgate, ?_, ?_⟩
  · intro interval t1 t2 d1 d2 r1 r2 hdiv hle h1
    have g1 := hgate interval t1 d1 r1 h1
    cases h2 : monitorCycleSidecar interval t2 d2 r2 with
    | false => rfl
    | true =>
      have g2 := hgate interval t2 d2 r2 h2
      exfalso
      omega
  · intro interval t d resp
    constructor
    · intro h
      refine ⟨?_, hgate interval t (some d) resp h⟩
      simp only [monitorCycleSidecar] at h
      split_ifs at h with hsend
      exact hsend
    · intro hcond
      obtain ⟨hs, hm⟩ := hcond
      simp [monitorCycleSidecar, hs, hm]

/-- Witness for C7 (amended): at seconds 5 and 200 of the same 300-second
window, with interval 30 and a successful report, the sidecar runs at 5
and is provably not run again at 200. -/
theorem c7_amended_sidecar_gate_witness :
    5 % 300 < 30 ∧
    monitorCycleSidecar 30 200 (some (collect_health_data sampleHealthEnv))
      (.status 201) = false ∧
    (monitorCycleSidecar 30 5 (some (collect_health_data sampleHealthEnv))
        (.status 201) = true ↔
      (send_health_data (some (collect_health_data sampleHealthEnv))
          (.status 201) = true ∧ 5 % 300 < 30)) := by
  have hinv : monitorCycleSidecar 30 5
      (some (collect_health_data sampleHealthEnv)) (.status 201) = true := by
    simp [monitorCycleSidecar, send_health_data]
  exact ⟨c7_amended_sidecar_gate.1 30 5
           (some (collect_health_data sampleHealthEnv)) (.status 201) hinv,
         c7_amended_sidecar_gate.2.1 30 5 200
           (some (collect_health_data sampleHealthEnv))
           (some (collect_health_data sampleHealthEnv))
           (.status 201) (.status 201) rfl (by norm_num) hinv,
         c7_amended_sidecar_gate.2.2 30 5
           (collect_health_data sampleHealthEnv) (.status 201)⟩

/-- C8: the synthesizers are deterministic — purely functions of the
wall-clock inputs and the random source, with no other input: two
invocations with identical `(now, seed)` whose random sources agree on
the draws actually consumed (the host simulator draws 12 uniforms, the
sensor simulator at most 2) produce identical outputs. -/
theorem c8_synthesizer_deterministic (sinPi : ℚ → ℚ) (hour : ℤ)
    (epochNow : ℚ) (u v : ℕ → ℚ) (deviceId timestamp : String)
    (mathBound : Bool) (huv : ∀ i, i < 12 → u i = v i) :
    generate_realistic_health_data sinPi hour epochNow u deviceId timestamp
      = generate_realistic_health_data sinPi hour epochNow v deviceId
          timestamp ∧
    generate_realistic_data mathBound sinPi hour u
      = generate_realistic_data mathBound sinPi hour v := by
  have h0 := huv 0 (by norm_num)
  have h1 := huv 1 (by norm_num)
  have h2 := huv 2 (by norm_num)
  have h3 := huv 3 (by norm_num)
  have h4 := huv 4 (by norm_num)
  have h5 := huv 5 (by norm_num)
  have h6 := huv 6 (by norm_num)
  have h7 := huv 7 (by norm_num)
  have h8 := huv 8 (by norm_num)
  have h9 := huv 9 (by norm_num)
  have h10 := huv 10 (by norm_num)
  have h11 := huv 11 (by norm_num)
  constructor
  · simp only [generate_realistic_health_data, h0, h1, h2, h3, h4, h5, h6,
      h7, h8, h9, h10, h11]
  · simp only [generate_realistic_data, h0, h1]

/-- Witness for C8 at concrete inputs (both random sources `zeroDraws`). -/
theorem c8_synthesizer_deterministic_witness :
    generate_realistic_health_data sinPiEx 8 1700000000 zeroDraws
        "pi4-device-001" "t"
      = generate_realistic_health_data sinPiEx 8 1700000000 zeroDraws
          "pi4-device-001" "t" ∧
    generate_realistic_data false sinPiEx 8 zeroDraws
      = generate_realistic_data false sinPiEx 8 zeroDraws :=
  c8_synthesizer_deterministic sinPiEx 8 1700000000 zeroDraws zeroDraws
    "pi4-device-001" "t" false (fun _ _ => rfl)

/-- C9 counterexample: at wall-clock hour 8 the two sine arguments the
host simulator evaluates are `(8-6)/12 = 1/6` and `(8-8)/12 = 0`, where
the true sine-of-π-multiples values are exactly `1/2` and `0` — values
`sinPiEx` reproduces — and with every uniform draw at the lower bound of
its declared range (`zeroDraws`, attainable by `random.uniform`), the
derived `loadAverage5m = round(0.1·0.8 - 0.2, 2) = -0.12` is negative:
`load_5m` is not clamped, refuting "derived load averages within
plausible non-negative ranges". -/
theorem c9_counterexample :
    (generate_realistic_health_data sinPiEx 8 1700000000 zeroDraws
        "pi4-device-001" "t").loadAverage5m < 0 := by
  norm_num [generate_realistic_health_data, uniform, sinPiEx, zeroDraws,
    round2, rndTo, min_def, max_def]

/-- C9 amended: every *clamped* metric satisfies its declared range
regardless of the diurnal term and of the noise magnitude (the clamps
alone enforce it): host `cpuTemperature ∈ [20, 85]`, `cpuUsage ∈ [5,
95]`, `memoryUsage ∈ [20, 90]`, `diskUsage ∈ [40, 95]`, `loadAverage1m ≥
0.1`, and the sensor simulator's formula yields `temperature ∈ [-10,
50]`, `humidity ∈ [20, 80]`; the derived `loadAverage5m`/`loadAverage15m`
and `uptime` are not clamped and carry no such guarantee. -/
theorem c9_amended_clamp_ranges (sinPi : ℚ → ℚ) (hour : ℤ) (epochNow : ℚ)
    (u : ℕ → ℚ) (deviceId timestamp : String) :
    (20 ≤ (generate_realistic_health_data sinPi hour epochNow u deviceId
        timestamp).cpuTemperature ∧
      (generate_realistic_health_data sinPi hour epochNow u deviceId
        timestamp).cpuTemperature ≤ 85) ∧
    (5 ≤ (generate_realistic_health_data sinPi hour epochNow u deviceId
        timestamp).cpuUsage ∧
      (generate_realistic_health_data sinPi hour epochNow u deviceId
        timestamp).cpuUsage ≤ 95) ∧
    (20 ≤ (generate_realistic_health_data sinPi hour epochNow u deviceId
        timestamp).memoryUsage ∧
      (generate_realistic_health_data sinPi hour epochNow u deviceId
        timestamp).memoryUsage ≤ 90) ∧
    (40 ≤ (generate_realistic_health_data sinPi hour epochNow u deviceId
        timestamp).diskUsage ∧
      (generate_realistic_health_data sinPi hour epochNow u deviceId
        timestamp).diskUsage ≤ 95) ∧
    1/10 ≤ (generate_realistic_health_data sinPi hour epochNow u deviceId
        timestamp).loadAverage1m ∧
    (∀ t h : ℚ, generate_realistic_data true sinPi hour u = .ok (t, h) →
        -10 ≤ t ∧ t ≤ 50 ∧ 20 ≤ h ∧ h ≤ 80) := by
  simp only [generate_realistic_health_data]
  refine ⟨⟨?_, ?_⟩, ⟨?_, ?_⟩, ⟨?_, ?_⟩, ⟨?_, ?_⟩, ?_, ?_⟩
  · exact rndTo_ge_of 100 (by norm_num) _ 20 2000 (by norm_num)
      (le_max_left _ _)
  · exact rndTo_le_of 100 (by norm_num) _ 85 8500 (by norm_num)
      (max_le (by norm_num) (min_le_left _ _))
  · exact rndTo_ge_of 100 (by norm_num) _ 5 500 (by norm_num)
      (le_max_left _ _)
  · exact rndTo_le_of 100 (by norm_num) _ 95 9500 (by norm_num)
      (max_le (by norm_num) (min_le_left _ _))
  · exact rndTo_ge_of 100 (by norm_num) _ 20 2000 (by norm_num)
      (le_max_left _ _)
  · exact rndTo_le_of 100 (by norm_num) _ 90 9000 (by norm_num)
      (max_le (by norm_num) (min_le_left _ _))
  · exact rndTo_ge_of 100 (by norm_num) _ 40 4000 (by norm_num)
      (le_max_left _ _)
  · exact rndTo_le_of 100 (by norm_num) _ 95 9500 (by norm_num)
      (max_le (by norm_num) (min_le_left _ _))
  · exact rndTo_ge_of 100 (by norm_num) _ (1/10) 10 (by norm_num)
      (le_trans (by norm_num) (le_max_left _ _))
  · intro t h heq
    simp only [generate_realistic_data, Bool.not_true, Bool.false_eq_true,
      if_false, Except.ok.injEq, Prod.mk.injEq] at heq
    obtain ⟨ht, hh⟩ := heq
    subst ht
    subst hh
    refine ⟨?_, ?_, ?_, ?_⟩
    · exact rndTo_ge_of 10 (by norm_num) _ (-10) (-100) (by norm_num)
        (le_max_left _ _)
    · exact rndTo_le_of 10 (by norm_num) _ 50 500 (by norm_num)
        (max_le (by norm_num) (min_le_left _ _))
    · exact rndTo_ge_of 10 (by norm_num) _ 20 200 (by norm_num)
        (le_max_left _ _)
    · exact rndTo_le_of 10 (by norm_num) _ 80 800 (by norm_num)
        (max_le (by norm_num) (min_le_left _ _))

/-- Witness for C9 (amended) at concrete inputs: the sensor-formula
implication is discharged at the reading the formula actually produces
at hour 8 with all draws at their lower bounds, namely (23.0, 39.0). -/
theorem c9_amended_clamp_ranges_witness :
    (-10 ≤ (23 : ℚ) ∧ (23 : ℚ) ≤ 50 ∧ 20 ≤ (39 : ℚ) ∧ (39 : ℚ) ≤ 80) ∧
    20 ≤ (generate_realistic_health_data sinPiEx 8 1700000000 zeroDraws
        "pi4-device-001" "t").cpuTemperature := by
  have heq : generate_realistic_data true sinPiEx 8 zeroDraws
      = .ok (23, 39) := by
    norm_num [generate_realistic_data, uniform, sinPiEx, zeroDraws, round1,
      rndTo, min_def, max_def]
  exact ⟨(c9_amended_clamp_ranges sinPiEx 8 1700000000 zeroDraws
            "pi4-device-001" "t").2.2.2.2.2 23 39 heq,
         (c9_amended_clamp_ranges sinPiEx 8 1700000000 zeroDraws
            "pi4-device-001" "t").1.1⟩

/-- C10: the sensor simulator binds `math` only inside `main`'s local
scope, so every call of `generate_realistic_data` raises a `NameError` at
its first `math.sin` use; consequently no synthetic reading is ever
produced or sent, and the simulator's main loop aborts on the first
cycle through the generic exception handler. -/
theorem c10_sensor_sim_name_error (sinPi : ℚ → ℚ) (hour : ℤ) (u : ℕ → ℚ)
    (resp : HttpResult) :
    generate_realistic_data dht11SimMathInScope sinPi hour u
      = .error .nameError ∧
    dht11SimCycle dht11SimMathInScope sinPi hour u resp = .aborted :=
  ⟨rfl, rfl⟩
